import Mathlib

/-!
Shallow embedding of the virtualization layout core of `src/src/Table.tsx`
(react-fluid-table): row key resolution, the row size cache, the column
width allocator, the debounced resize coordinator, and the adapter handed
to the external windowing engine.

JavaScript numbers used by this code are integers (pixel widths, heights,
indices); they are embedded as `Int`/`Nat`.  A value that may be
`undefined` is embedded as an `Option`.  JavaScript truthiness on numbers
(`x || y`, `x ? a : b`) is made explicit through `truthyInt`/`orDefault`.
-/

namespace Table

/-- The `Text` type of `index.ts`: a row key is either a string or a
number.  Keys produced by `generateKeyFromRow` and the `itemKey` prop of
the windowing engine live in this type. -/
inductive Text where
  | str : String → Text
  | num : Int → Text
deriving DecidableEq, Repr

/-- JavaScript truthiness of a possibly-undefined number: `undefined`
and `0` are falsy, every other number is truthy. -/
def truthyInt : Option Int → Bool
  | none => false
  | some n => n != 0

/-- JavaScript `x || d` for a possibly-undefined number `x`: returns `d`
when `x` is `undefined` or `0`, otherwise the number itself. -/
def orDefault (x : Option Int) (d : Int) : Int :=
  match x with
  | none => d
  | some n => if n = 0 then d else n

/-- Embedding of `generateKeyFromRow` (Table.tsx lines 56-62): when the
user-supplied `itemKey` extractor exists its result is used unless it is
`undefined`; otherwise the supplied numeric `defaultValue` becomes the
key.  The row type `ρ` is opaque to the core (`Generic` in the source);
an extractor may itself return `undefined`, hence `Option Text`. -/
def generateKeyFromRow {ρ : Type} (itemKeyFn : Option (ρ → Option Text))
    (row : ρ) (defaultValue : Int) : Text :=
  match itemKeyFn with
  | none => Text.num defaultValue
  | some f =>
    match f row with
    | none => Text.num defaultValue
    | some k => k

/-- Embedding of the row-width-mode comparison (Table.tsx lines 127 and
146): the published `useRowWidth` boolean is
`scrollWidth <= clientWidth` of the container. -/
def computeUseRowWidth (scrollWidth clientWidth : Int) : Bool :=
  scrollWidth ≤ clientWidth

/-- The `NO_PARENT` fallback (Table.tsx lines 24-26): when `tableRef` is
not mounted at the moment the row-width-mode timer fires, the comparison
runs on `{ scrollWidth: 0, clientWidth: 0 }`.  `parent` is
`some (scrollWidth, clientWidth)` when the container is mounted. -/
def shouldUseRowWidthFire (parent : Option (Int × Int)) : Bool :=
  match parent with
  | none => computeUseRowWidth 0 0
  | some (s, c) => computeUseRowWidth s c

/-- Modelled from the spec: `calculateColumnWidths` lives in
`src/useCellResize.ts`, which is not under `src/`; only its call site
(Table.tsx line 114) is.  Per spec section 4.3: with the container
mounted at width `cw`, `available = cw - fixedTotalWidth` and each of
the `remainingCols` flexible columns receives
`max(minColumnWidth, floor(available / remainingCols))`; with the
container not yet mounted the previous vector is returned unchanged. -/
def calculateColumnWidths (container : Option Int) (remainingCols : Nat)
    (fixedWidth minColumnWidth : Int) (prev : List Int) : List Int :=
  match container with
  | none => prev
  | some cw =>
    List.replicate remainingCols
      (max minColumnWidth (Int.fdiv (cw - fixedWidth) remainingCols))

/-- Modelled from the spec: `arraysMatch` lives in `src/util.ts`, which
is not under `src/`; only its call site (Table.tsx line 115) is.  Per
spec section 4.3 it is the element-wise comparison of the freshly
computed width vector against the previous one. -/
def arraysMatch (a b : List Int) : Bool :=
  a == b

/-- Embedding of `pixelWidthsHelper` (Table.tsx lines 113-118): compute
the width vector and publish it through `setPixelWidths` only when it
differs element-wise from the current `pixelWidths` state.  Returns the
resulting width state together with whether a state update fired. -/
def pixelWidthsHelper (container : Option Int) (remainingCols : Nat)
    (fixedWidth minColumnWidth : Int) (pixelWidths : List Int) :
    List Int × Bool :=
  let widths := calculateColumnWidths container remainingCols fixedWidth
    minColumnWidth pixelWidths
  if arraysMatch widths pixelWidths then (pixelWidths, false)
  else (widths, true)

/-- Embedding of the key passed by `calculateHeight` (Table.tsx line 93)
to `findRowByUuidAndKey`: `generateKeyFromRow(data[dataIndex], dataIndex)`.
The array access `data[dataIndex]` may be out of bounds, in which case
the extractor receives `undefined`; hence the extractor's argument type
is `Option ρ`. -/
def calculateHeightKey {ρ : Type} (itemKeyFn : Option (Option ρ → Option Text))
    (rows : List ρ) (dataIndex : Nat) : Text :=
  generateKeyFromRow itemKeyFn (rows.get? dataIndex) (dataIndex : Int)

/-- Embedding of the `itemKey` function handed to the windowing engine
(Table.tsx lines 196-201): position `0` is the header sentinel key;
data row at position `index` resolves through `generateKeyFromRow` with
fallback `index` (the windowing position, not the data index). -/
def listItemKey {ρ : Type} (itemKeyFn : Option (Option ρ → Option Text))
    (uuid : String) (rows : List ρ) (index : Nat) : Text :=
  if index = 0 then Text.str (uuid ++ "-header")
  else generateKeyFromRow itemKeyFn (rows.get? (index - 1)) (index : Int)

/-- A mounted row element as `calculateHeight` sees it: the list of its
children's `offsetHeight` values, in order. -/
structure RowElem where
  children : List Int
deriving DecidableEq, Repr

/-- The environment `calculateHeight` reads: whether the windowing
engine handle (`listRef.current`) is attached, its internal offset
table (`_instanceProps.itemMetadataMap`, indexed by windowing position,
`none` for an index never laid out), and the mounted row lookup
(`findRowByUuidAndKey uuid key`, `none` when no such row is in the
live render tree). -/
structure HeightEnv where
  listAttached : Bool
  itemMetadataMap : Nat → Option Int
  mountedRowByKey : Text → Option RowElem

/-- The configuration `calculateHeight` closes over: the data rows, the
optional fixed `rowHeight`, the `estimatedRowHeight` default, and the
user key extractor. -/
structure HeightCfg (ρ : Type) where
  rows : List ρ
  rowHeight : Option Int
  estimatedRowHeight : Int
  itemKeyFn : Option (Option ρ → Option Text)

/-- The `defaultSize` variable (Table.tsx line 52):
`rowHeight || estimatedRowHeight`. -/
def defaultSize {ρ : Type} (cfg : HeightCfg ρ) : Int :=
  orDefault cfg.rowHeight cfg.estimatedRowHeight

/-- The query accepted by `calculateHeight` (Table.tsx line 91): either
a numeric data index (the windowing engine's `itemSize` path), or a row
element (possibly `undefined`) together with the explicit
`optionalDataIndex` (the path used by mounted rows reporting their own
size). -/
inductive HeightQuery where
  | byIndex (dataIndex : Nat)
  | byRow (row : Option RowElem) (dataIndex : Nat)

/-- Embedding of `calculateHeight` (Table.tsx lines 90-111).  The row is
located by key when the query is numeric; when no row element is
reachable the cached size `itemMetadataMap[dataIndex + 1]` is used with
`cachedSize.size || defaultSize` semantics (absent or zero falls back to
`defaultSize`); an unattached handle yields `defaultSize`; a reachable
row yields `(rowHeight || 0)` plus the sum of its children's heights,
where a truthy `rowHeight` drops the first child (`slice(1)`). -/
def calculateHeight {ρ : Type} (env : HeightEnv) (cfg : HeightCfg ρ)
    (q : HeightQuery) : Int :=
  let dataIndex := match q with
    | .byIndex i => i
    | .byRow _ i => i
  let key := calculateHeightKey cfg.itemKeyFn cfg.rows dataIndex
  let row := match q with
    | .byIndex _ => env.mountedRowByKey key
    | .byRow r _ => r
  match row with
  | none =>
    if !env.listAttached then defaultSize cfg
    else orDefault (env.itemMetadataMap (dataIndex + 1)) (defaultSize cfg)
  | some r =>
    let arr := if truthyInt cfg.rowHeight then r.children.drop 1
      else r.children
    cfg.rowHeight.getD 0 + arr.sum

/-- State of the size-cache invalidation machinery of `clearSizeCache`
(Table.tsx lines 64-88): the pending debounce timer (`timeoutRef`),
recording the data index it was armed with, and the trace of
`resetAfterIndex` calls issued to the windowing engine, in order. -/
structure SizeCacheState where
  pendingInvalidate : Option Nat
  resets : List Nat
deriving DecidableEq, Repr

/-- Embedding of `clearSizeCache` (Table.tsx lines 64-88): a no-op when
the windowing handle is unattached; otherwise any pending timer is
cleared, then either `resetAfterIndex (dataIndex + 1)` fires
synchronously (`forceUpdate`) or a fresh ~50ms timer is armed. -/
def clearSizeCache (listAttached : Bool) (st : SizeCacheState)
    (dataIndex : Nat) (forceUpdate : Bool) : SizeCacheState :=
  if !listAttached then st
  else
    let st1 : SizeCacheState := { st with pendingInvalidate := none }
    if forceUpdate then { st1 with resets := st1.resets ++ [dataIndex + 1] }
    else { st1 with pendingInvalidate := some dataIndex }

/-- Embedding of the timer callback armed by `clearSizeCache`
(Table.tsx lines 80-85): on firing, the reset index is read from the
live render tree — `parseInt(first mounted row's dataset.index) + 1`,
with `0` when `tableRef` is unattached — ignoring the data index the
timer was armed with. -/
def fireInvalidateTimer (firstMounted : Option Nat) (st : SizeCacheState) :
    SizeCacheState :=
  match st.pendingInvalidate with
  | none => st
  | some _ =>
    { pendingInvalidate := none,
      resets := st.resets ++ [firstMounted.getD 0 + 1] }

/-- A debounced ~50ms timer as implemented by `shouldUseRowWidth`
(Table.tsx lines 120-129) and `calculatepixelWidths` (lines 131-137):
`pending` is the scheduled task (the closure captured at signal time),
`executed` the trace of tasks that actually ran. -/
structure DebouncedTimer (σ : Type) where
  pending : Option σ
  executed : List σ
deriving DecidableEq, Repr

/-- One resize signal: `clearTimeout` on any pending task, then
`setTimeout` of the new task — cancel-and-reschedule, never queueing. -/
def armTimer {σ : Type} (t : DebouncedTimer σ) (task : σ) : DebouncedTimer σ :=
  { t with pending := some task }

/-- The timer firing: the pending task (if any) runs and the timer
returns to idle. -/
def fireTimer {σ : Type} (t : DebouncedTimer σ) : DebouncedTimer σ :=
  match t.pending with
  | none => t
  | some task => { pending := none, executed := t.executed ++ [task] }

/-- A burst of resize signals all landing within one debounce window
(no firing in between): each signal cancels and reschedules. -/
def signalBurst {σ : Type} (t : DebouncedTimer σ) (tasks : List σ) :
    DebouncedTimer σ :=
  tasks.foldl armTimer t

/-- The runtime state owned by `ListComponent` that teardown must
settle (Table.tsx lines 159-186): the three debounce timers
(`resizeRef`, `pixelWidthsRef`, `timeoutRef`), the two window resize
listeners, and the published state they would mutate (`useRowWidth`,
`pixelWidths`, and the reset trace sent to the windowing engine). -/
structure ComponentRuntime where
  resizeTimerPending : Bool
  pixelTimerPending : Bool
  cacheTimerPending : Option Nat
  resizeListenerOn : Bool
  pixelListenerOn : Bool
  useRowWidth : Bool
  pixelWidths : List Int
  resets : List Nat
deriving DecidableEq, Repr

/-- The row-width-mode timer firing (Table.tsx lines 125-128): only a
pending timer recomputes `useRowWidth` from the container's parent. -/
def fireModeTimer (parent : Option (Int × Int)) (c : ComponentRuntime) :
    ComponentRuntime :=
  if c.resizeTimerPending then
    { c with resizeTimerPending := false,
             useRowWidth := shouldUseRowWidthFire parent }
  else c

/-- The column-width timer firing (Table.tsx line 136): only a pending
timer runs `pixelWidthsHelper` against the current width state. -/
def fireWidthTimer (container : Option Int) (remainingCols : Nat)
    (fixedWidth minColumnWidth : Int) (c : ComponentRuntime) :
    ComponentRuntime :=
  if c.pixelTimerPending then
    { c with pixelTimerPending := false,
             pixelWidths := (pixelWidthsHelper container remainingCols
               fixedWidth minColumnWidth c.pixelWidths).1 }
  else c

/-- The size-cache invalidation timer firing in terms of the component
runtime (Table.tsx lines 80-85). -/
def fireCacheTimer (firstMounted : Option Nat) (c : ComponentRuntime) :
    ComponentRuntime :=
  match c.cacheTimerPending with
  | none => c
  | some _ =>
    { c with cacheTimerPending := none,
             resets := c.resets ++ [firstMounted.getD 0 + 1] }

/-- Embedding of the three unmount cleanups (Table.tsx lines 159-186):
clear `resizeRef` and remove its resize listener, clear
`pixelWidthsRef` and remove its resize listener, clear `timeoutRef`. -/
def unmountCleanup (c : ComponentRuntime) : ComponentRuntime :=
  { c with resizeTimerPending := false, resizeListenerOn := false,
           pixelTimerPending := false, pixelListenerOn := false,
           cacheTimerPending := none }

/-- Whether the user key extractor yields no key (`undefined`) for a
given row: vacuously so when no extractor is supplied. -/
def extractorUndefined {ρ : Type} (itemKeyFn : Option (Option ρ → Option Text))
    (row : Option ρ) : Prop :=
  match itemKeyFn with
  | none => True
  | some f => f row = none

/-- A concrete environment with the windowing handle attached, an empty
offset table, and exactly one mounted row (key `0`) whose two children
have heights 10 and 20. -/
def cex3Env : HeightEnv where
  listAttached := true
  itemMetadataMap := fun _ => none
  mountedRowByKey := fun k => if k = Text.num 0 then some ⟨[10, 20]⟩ else none

/-- A concrete configuration with a fixed `rowHeight` of 40, estimated
row height 37, one data row, and no user key extractor. -/
def cex3Cfg : HeightCfg Unit where
  rows := [()]
  rowHeight := some 40
  estimatedRowHeight := 37
  itemKeyFn := none

/-- A concrete environment with the windowing handle unattached and no
row mounted. -/
def detachedEnv : HeightEnv where
  listAttached := false
  itemMetadataMap := fun _ => none
  mountedRowByKey := fun _ => none

/-- A concrete configuration with no fixed `rowHeight`, estimated row
height 37, no rows, and no user key extractor. -/
def plainCfg : HeightCfg Unit where
  rows := []
  rowHeight := none
  estimatedRowHeight := 37
  itemKeyFn := none

/-- C1 counterexample: the claim asserts that with natural content
width 1200 and clientWidth 1000 the mode is natural-width and
`useRowWidth` is true exactly in that mode, hence it asserts
`computeUseRowWidth 1200 1000 = true`; the code computes
`scrollWidth <= clientWidth`, which is `false` there. -/
theorem useRowWidth_claim_counterexample :
    computeUseRowWidth 1200 1000 = false ∧
    ¬ computeUseRowWidth 1200 1000 = true := by
  decide

/-- C1 (amended): `useRowWidth` is published as
`scrollWidth <= clientWidth` — true exactly in the no-overflow case —
so with natural content width 1200 against clientWidth 1000 the flag is
false, and with 800 against 1000 it is true; the spec's association of
`true` with natural-width layout is inverted. -/
theorem useRowWidth_mode_amended (s c : Int) :
    (computeUseRowWidth s c = true ↔ s ≤ c) ∧
    computeUseRowWidth 1200 1000 = false ∧
    computeUseRowWidth 800 1000 = true ∧
    shouldUseRowWidthFire (some (1200, 1000)) = false ∧
    shouldUseRowWidthFire (some (800, 1000)) = true := by
  refine ⟨?_, by decide, by decide, by decide, by decide⟩
  simp [computeUseRowWidth]

/-- C1 witness: the amended theorem applied at scroll width 800 and
client width 1000. -/
theorem useRowWidth_mode_amended_witness :
    (computeUseRowWidth 800 1000 = true ↔ (800 : Int) ≤ 1000) ∧
    computeUseRowWidth 800 1000 = true :=
  ⟨(useRowWidth_mode_amended 800 1000).1, (useRowWidth_mode_amended 800 1000).2.2.1⟩

/-- C2: the allocator assigns every flexible column
`max(minColumnWidth, floor((containerWidth - fixedTotalWidth) / count))`
with one entry per flexible column; at container 1000, fixed total 200,
three flexible columns, min 80 each gets 266 and the total stays within
the container; at container 100, fixed total 200, two flexible columns,
min 80 every column falls back to exactly 80, never below the
minimum. -/
theorem calculateColumnWidths_spec :
    (∀ (cw fixedW minW : Int) (n : Nat) (prev : List Int) (w : Int),
        w ∈ calculateColumnWidths (some cw) n fixedW minW prev →
        w = max minW (Int.fdiv (cw - fixedW) (n : Int))) ∧
    (∀ (cw fixedW minW : Int) (n : Nat) (prev : List Int),
        (calculateColumnWidths (some cw) n fixedW minW prev).length = n) ∧
    calculateColumnWidths (some 1000) 3 200 80 [] = [266, 266, 266] ∧
    200 + (calculateColumnWidths (some 1000) 3 200 80 []).sum ≤ 1000 ∧
    calculateColumnWidths (some 100) 2 200 80 [] = [80, 80] ∧
    (∀ w ∈ calculateColumnWidths (some 100) 2 200 80 [], 80 ≤ w) := by
  refine ⟨?_, ?_, by decide, by decide, by decide, by decide⟩
  · intro cw fixedW minW n prev w hw
    exact List.eq_of_mem_replicate hw
  · intro cw fixedW minW n prev
    exact List.length_replicate _ _

/-- C2 witness: 266 is a member of the allocation for container 1000,
fixed total 200, three flexible columns, min 80, and equals the
formula's value there. -/
theorem calculateColumnWidths_spec_witness :
    (266 : Int) ∈ calculateColumnWidths (some 1000) 3 200 80 [] ∧
    (266 : Int) = max 80 (Int.fdiv (1000 - 200) (3 : Int)) :=
  ⟨by decide,
    calculateColumnWidths_spec.1 1000 200 80 3 [] 266 (by decide)⟩

/-- C7: `generateKeyFromRow` returns the extractor's result whenever an
extractor is supplied and yields a defined key; with no extractor, or an
extractor yielding `undefined`, it returns the fallback index as the
key.  The function is total, so it never throws. -/
theorem generateKeyFromRow_spec {ρ : Type} (f : ρ → Option Text) (row : ρ)
    (d : Int) (k : Text) :
    (f row = some k → generateKeyFromRow (some f) row d = k) ∧
    (f row = none → generateKeyFromRow (some f) row d = Text.num d) ∧
    generateKeyFromRow (none : Option (ρ → Option Text)) row d = Text.num d := by
  refine ⟨?_, ?_, rfl⟩ <;> intro h <;> simp [generateKeyFromRow, h]

/-- C7 witness: a concrete extractor that yields the string key "k" is
honored at fallback index 7. -/
theorem generateKeyFromRow_spec_witness :
    (fun _ : Unit => some (Text.str "k")) () = some (Text.str "k") ∧
    generateKeyFromRow (some (fun _ : Unit => some (Text.str "k"))) () 7
      = Text.str "k" :=
  ⟨rfl,
    (generateKeyFromRow_spec (fun _ : Unit => some (Text.str "k")) () 7
      (Text.str "k")).1 rfl⟩

/-- C10: in the no-extractor (or extractor-yields-undefined) case, the
key handed to the windowing engine for the data row at position
`index ≥ 1` is `index` itself, while the key `calculateHeight` uses to
locate that row's mounted element is the fallback `index - 1`; the two
keys always differ. -/
theorem itemKey_calculateHeight_key_mismatch {ρ : Type}
    (itemKeyFn : Option (Option ρ → Option Text)) (uuid : String)
    (rows : List ρ) (index : Nat) (h1 : 1 ≤ index)
    (h2 : extractorUndefined itemKeyFn (rows.get? (index - 1))) :
    listItemKey itemKeyFn uuid rows index = Text.num (index : Int) ∧
    calculateHeightKey itemKeyFn rows (index - 1)
      = Text.num ((index : Int) - 1) ∧
    listItemKey itemKeyFn uuid rows index
      ≠ calculateHeightKey itemKeyFn rows (index - 1) := by
  have hne : (index : Int) ≠ (index : Int) - 1 := by omega
  have hcast : ((index - 1 : Nat) : Int) = (index : Int) - 1 := by omega
  have h0 : ¬ index = 0 := by omega
  have hk1 : listItemKey itemKeyFn uuid rows index = Text.num (index : Int) := by
    unfold listItemKey
    rw [if_neg h0]
    cases hf : itemKeyFn with
    | none => rfl
    | some f =>
      rw [hf] at h2
      have h2' : f (rows.get? (index - 1)) = none := h2
      simp only [List.get?_eq_getElem?] at h2'
      simp only [generateKeyFromRow, List.get?_eq_getElem?, h2']
  have hk2 : calculateHeightKey itemKeyFn rows (index - 1)
      = Text.num ((index : Int) - 1) := by
    unfold calculateHeightKey
    rw [← hcast]
    cases hf : itemKeyFn with
    | none => rfl
    | some f =>
      rw [hf] at h2
      have h2' : f (rows.get? (index - 1)) = none := h2
      simp only [List.get?_eq_getElem?] at h2'
      simp only [generateKeyFromRow, List.get?_eq_getElem?, h2']
  refine ⟨hk1, hk2, ?_⟩
  rw [hk1, hk2]
  intro hcontra
  injection hcontra with h
  exact hne h

/-- C10 witness: with no extractor, one data row, and windowing
position 1, the rendered key is `1` and the measurement lookup key is
`0`. -/
theorem itemKey_calculateHeight_key_mismatch_witness :
    listItemKey (none : Option (Option Unit → Option Text)) "t" [()] 1
      = Text.num ((1 : Nat) : Int) ∧
    calculateHeightKey (none : Option (Option Unit → Option Text)) [()] (1 - 1)
      = Text.num (((1 : Nat) : Int) - 1) ∧
    listItemKey (none : Option (Option Unit → Option Text)) "t" [()] 1
      ≠ calculateHeightKey (none : Option (Option Unit → Option Text)) [()]
          (1 - 1) :=
  itemKey_calculateHeight_key_mismatch none "t" [()] 1 (by decide) trivial

/-- C3 counterexample: the claim says a mounted row's estimate is the
fixed row-height contribution plus the sum of the row element's
children's box heights; with `rowHeight = 40` and a mounted row whose
children have heights 10 and 20 the code drops the first child
(`slice(1)`) and returns 60, not 40 + (10 + 20) = 70. -/
theorem calculateHeight_claim_counterexample :
    cex3Env.mountedRowByKey (Text.num 0) = some ⟨[10, 20]⟩ ∧
    calculateHeight cex3Env cex3Cfg (.byIndex 0) = 60 ∧
    ¬ calculateHeight cex3Env cex3Cfg (.byIndex 0) = 40 + (10 + 20) := by
  decide

/-- C3 (amended): with no row reachable and the handle unattached the
estimate is the configured default; with the handle attached but the
row unmounted it is the cached size from the offset table at the row's
windowing position, falling back to the default when that entry is
absent or zero; with the row mounted and a nonzero fixed `rowHeight` it
is `rowHeight` plus the sum of the children's heights excluding the
first child, and with no fixed `rowHeight` it is the sum of all
children's heights. -/
theorem calculateHeight_amended {ρ : Type} (env : HeightEnv)
    (cfg : HeightCfg ρ) (i : Nat) :
    (env.mountedRowByKey (calculateHeightKey cfg.itemKeyFn cfg.rows i) = none →
      env.listAttached = false →
      calculateHeight env cfg (.byIndex i) = defaultSize cfg) ∧
    (env.mountedRowByKey (calculateHeightKey cfg.itemKeyFn cfg.rows i) = none →
      env.listAttached = true → env.itemMetadataMap (i + 1) = none →
      calculateHeight env cfg (.byIndex i) = defaultSize cfg) ∧
    (∀ s : Int,
      env.mountedRowByKey (calculateHeightKey cfg.itemKeyFn cfg.rows i) = none →
      env.listAttached = true → env.itemMetadataMap (i + 1) = some s →
      s ≠ 0 → calculateHeight env cfg (.byIndex i) = s) ∧
    (env.mountedRowByKey (calculateHeightKey cfg.itemKeyFn cfg.rows i) = none →
      env.listAttached = true → env.itemMetadataMap (i + 1) = some 0 →
      calculateHeight env cfg (.byIndex i) = defaultSize cfg) ∧
    (∀ (r : RowElem) (h : Int),
      env.mountedRowByKey (calculateHeightKey cfg.itemKeyFn cfg.rows i) = some r →
      cfg.rowHeight = some h → h ≠ 0 →
      calculateHeight env cfg (.byIndex i) = h + (r.children.drop 1).sum) ∧
    (∀ r : RowElem,
      env.mountedRowByKey (calculateHeightKey cfg.itemKeyFn cfg.rows i) = some r →
      cfg.rowHeight = none →
      calculateHeight env cfg (.byIndex i) = r.children.sum) := by
  refine ⟨?_, ?_, ?_, ?_, ?_, ?_⟩
  · intro hrow hatt
    simp [calculateHeight, hrow, hatt]
  · intro hrow hatt hmap
    simp [calculateHeight, hrow, hatt, hmap, orDefault]
  · intro s hrow hatt hmap hs
    simp [calculateHeight, hrow, hatt, hmap, orDefault, hs]
  · intro hrow hatt hmap
    simp [calculateHeight, hrow, hatt, hmap, orDefault]
  · intro r h hrow hrh hh
    simp [calculateHeight, hrow, hrh, truthyInt, hh]
  · intro r hrow hrh
    simp [calculateHeight, hrow, hrh, truthyInt]

/-- C3 witness: with nothing mounted and the handle unattached, the
estimate for data index 0 is the configured default. -/
theorem calculateHeight_amended_witness :
    detachedEnv.mountedRowByKey
      (calculateHeightKey plainCfg.itemKeyFn plainCfg.rows 0) = none ∧
    detachedEnv.listAttached = false ∧
    calculateHeight detachedEnv plainCfg (.byIndex 0) = defaultSize plainCfg :=
  ⟨rfl, rfl, (calculateHeight_amended detachedEnv plainCfg 0).1 rfl rfl⟩

/-- C4: with the windowing handle attached, a forced `clearSizeCache`
resets the engine synchronously at the requested row's windowing
position (`dataIndex + 1`) and leaves no timer armed; an unforced call
issues no reset and arms (or re-arms) the pending timer; when that
timer fires, the reset starts at the windowing position of the first
currently mounted row, independent of the originally requested
index. -/
theorem clearSizeCache_invalidation (st : SizeCacheState) (d d' : Nat)
    (fm : Option Nat) :
    clearSizeCache true st d true
      = { pendingInvalidate := none, resets := st.resets ++ [d + 1] } ∧
    clearSizeCache true st d false
      = { pendingInvalidate := some d, resets := st.resets } ∧
    fireInvalidateTimer fm (clearSizeCache true st d false)
      = { pendingInvalidate := none,
          resets := st.resets ++ [fm.getD 0 + 1] } ∧
    fireInvalidateTimer fm (clearSizeCache true st d false)
      = fireInvalidateTimer fm (clearSizeCache true st d' false) := by
  refine ⟨?_, ?_, ?_, ?_⟩ <;>
    simp [clearSizeCache, fireInvalidateTimer]

/-- C4 witness: the theorem instantiated at an empty trace, requested
data index 4, and first mounted row 9. -/
theorem clearSizeCache_invalidation_witness :
    clearSizeCache true ⟨none, []⟩ 4 true = ⟨none, [5]⟩ ∧
    fireInvalidateTimer (some 9) (clearSizeCache true ⟨none, []⟩ 4 false)
      = ⟨none, [10]⟩ :=
  ⟨(clearSizeCache_invalidation ⟨none, []⟩ 4 0 (some 9)).1,
    (clearSizeCache_invalidation ⟨none, []⟩ 4 0 (some 9)).2.2.1⟩

/-- Helper: a burst ending in `task` leaves exactly `task` pending and
never touches the executed trace (arming only cancels and
reschedules). -/
theorem signalBurst_append_last {σ : Type} (t : DebouncedTimer σ)
    (ts : List σ) (task : σ) :
    signalBurst t (ts ++ [task]) = ⟨some task, t.executed⟩ := by
  induction ts generalizing t with
  | nil => rfl
  | cons a ts ih => exact ih (armTimer t a)

/-- C5: a burst of N ≥ 1 signals on one debounced timer within a single
window — each signal cancelling and rescheduling — followed by the
timer firing executes exactly one task: the one scheduled by the last
signal (the closure capturing the state at the last signal). -/
theorem debounce_coalescing {σ : Type} (ts : List σ) (task : σ) :
    fireTimer (signalBurst ⟨none, []⟩ (ts ++ [task])) = ⟨none, [task]⟩ ∧
    (fireTimer (signalBurst ⟨none, []⟩ (ts ++ [task]))).executed.length = 1 := by
  have h : signalBurst (⟨none, []⟩ : DebouncedTimer σ) (ts ++ [task])
      = ⟨some task, []⟩ := signalBurst_append_last ⟨none, []⟩ ts task
  rw [h]
  exact ⟨rfl, rfl⟩

/-- C5 witness: three signals carrying tasks 1, 2, 3 in one window
produce exactly the single execution of task 3. -/
theorem debounce_coalescing_witness :
    fireTimer (signalBurst ⟨none, []⟩ ([1, 2] ++ [(3 : Int)]))
      = ⟨none, [3]⟩ :=
  (debounce_coalescing [1, 2] (3 : Int)).1

/-- C6: running the width recomputation a second time against the state
left by the first run computes an element-wise identical vector and
triggers no state update. -/
theorem pixelWidthsHelper_idempotent (container : Option Int) (n : Nat)
    (fixedW minW : Int) (st : List Int) :
    pixelWidthsHelper container n fixedW minW
        (pixelWidthsHelper container n fixedW minW st).1
      = ((pixelWidthsHelper container n fixedW minW st).1, false) := by
  cases container with
  | none => simp [pixelWidthsHelper, calculateColumnWidths, arraysMatch]
  | some cw =>
    by_cases h :
        List.replicate n (max minW (Int.fdiv (cw - fixedW) (n : Int))) = st
    · simp [pixelWidthsHelper, calculateColumnWidths, arraysMatch, h]
    · simp [pixelWidthsHelper, calculateColumnWidths, arraysMatch, h]

/-- C6 witness: the theorem instantiated at container 1000, three
flexible columns, fixed total 200, min 80, empty previous state. -/
theorem pixelWidthsHelper_idempotent_witness :
    pixelWidthsHelper (some 1000) 3 200 80
        (pixelWidthsHelper (some 1000) 3 200 80 []).1
      = ((pixelWidthsHelper (some 1000) 3 200 80 []).1, false) :=
  pixelWidthsHelper_idempotent (some 1000) 3 200 80 []

/-- C8: with the windowing handle unattached, `clearSizeCache` leaves
the invalidation state completely unchanged (no reset, no timer), and
`calculateHeight` for an unmounted row returns the configured default;
both functions are total, so neither throws. -/
theorem unattached_noop {ρ : Type} (st : SizeCacheState) (d : Nat) (f : Bool)
    (env : HeightEnv) (cfg : HeightCfg ρ) (i : Nat)
    (hatt : env.listAttached = false)
    (hmounted : ∀ k, env.mountedRowByKey k = none) :
    clearSizeCache false st d f = st ∧
    calculateHeight env cfg (.byIndex i) = defaultSize cfg := by
  constructor
  · rfl
  · simp [calculateHeight, hmounted, hatt]

/-- C8 witness: with the handle unattached, a pending timer and empty
trace survive `clearSizeCache` untouched, and the estimate for data
index 5 is the default. -/
theorem unattached_noop_witness :
    detachedEnv.listAttached = false ∧
    clearSizeCache false ⟨some 2, []⟩ 3 true = ⟨some 2, []⟩ ∧
    calculateHeight detachedEnv plainCfg (.byIndex 5) = defaultSize plainCfg :=
  ⟨rfl,
    (unattached_noop ⟨some 2, []⟩ 3 true detachedEnv plainCfg 5 rfl
      (fun _ => rfl)).1,
    (unattached_noop ⟨some 2, []⟩ 3 true detachedEnv plainCfg 5 rfl
      (fun _ => rfl)).2⟩

/-- C9: after the unmount cleanups run, all three debounce timers are
cancelled and both resize listeners removed, and each timer firing
post-teardown leaves the runtime — including the mode flag, the width
vector, and the reset trace — completely unchanged. -/
theorem unmountCleanup_teardown (c : ComponentRuntime)
    (parent : Option (Int × Int)) (container : Option Int) (n : Nat)
    (fixedW minW : Int) (fm : Option Nat) :
    (unmountCleanup c).resizeTimerPending = false ∧
    (unmountCleanup c).pixelTimerPending = false ∧
    (unmountCleanup c).cacheTimerPending = none ∧
    (unmountCleanup c).resizeListenerOn = false ∧
    (unmountCleanup c).pixelListenerOn = false ∧
    fireModeTimer parent (unmountCleanup c) = unmountCleanup c ∧
    fireWidthTimer container n fixedW minW (unmountCleanup c)
      = unmountCleanup c ∧
    fireCacheTimer fm (unmountCleanup c) = unmountCleanup c := by
  refine ⟨rfl, rfl, rfl, rfl, rfl, ?_, ?_, ?_⟩ <;>
    simp [fireModeTimer, fireWidthTimer, fireCacheTimer, unmountCleanup]

/-- C9 witness: a runtime with every timer pending and both listeners
registered is fully settled by teardown, and a subsequent cache-timer
firing changes nothing. -/
theorem unmountCleanup_teardown_witness :
    fireCacheTimer (some 3)
        (unmountCleanup ⟨true, true, some 1, true, true, true, [5], []⟩)
      = unmountCleanup ⟨true, true, some 1, true, true, true, [5], []⟩ :=
  (unmountCleanup_teardown ⟨true, true, some 1, true, true, true, [5], []⟩
    none none 0 0 0 (some 3)).2.2.2.2.2.2.2

end Table
